import Mathlib

/-!
# Verification of the AR display-scaling subsystem

Shallow embedding of the AR scaling core of the 3DBigDataSpace AR viewer:

* `calculateARScaling` and its helpers translate
  `src/lib/utils/arScaling.ts` (pure scaling calculator).
* `scaleGlbForAR`, `downloadGlb`, `cleanupCache`, `getCacheKey` and the
  cache operations translate the GLB scaling service
  (`glbScaler.ts`, given as `src/unnamed/part_009`).

JavaScript numbers are modelled as `Rat`; timestamps (`Date.now()`
milliseconds) as `Nat`.  The external gltf-transform library
(`readBinary`, `writeBinary`, `getBounds`) and the network `fetch` are
modelled as components of an explicit environment `GlbEnv`; the
module-level mutable `Map` cache is modelled by explicit state passing
with JS `Map` semantics (insertion order, in-place update).
-/

set_option autoImplicit false

namespace ARViewer

/-- JS `Math.max` on two numbers (total on `Rat`, which has no `NaN`);
`Math.max(a, b, c)` is the fold `mathMax a (mathMax b c)`. -/
def mathMax (a b : Rat) : Rat := if a ≤ b then b else a

/-- The function `mathMax` agrees with the order-theoretic `max`. -/
theorem mathMax_eq_max (a b : Rat) : mathMax a b = max a b := (max_def a b).symm

/-- Constant `AR_MAX_DIMENSION_METERS = 2.0` from `arScaling.ts`. -/
def AR_MAX_DIMENSION_METERS : Rat := 2

/-- Structure `ModelDimensions` from `arScaling.ts`: extents along x/y/z in meters. -/
structure ModelDimensions where
  width : Rat
  height : Rat
  depth : Rat
deriving DecidableEq, Repr

/-- The three axis names used for `largestAxis`. -/
inductive Axis where
  | width
  | height
  | depth
deriving DecidableEq, Repr

/-- Structure `ARScalingResult` from `arScaling.ts`. -/
structure ARScalingResult where
  scaleFactor : Rat
  isScaled : Bool
  originalDimensions : ModelDimensions
  scaledDimensions : ModelDimensions
  largestDimension : Rat
  largestAxis : Axis
deriving DecidableEq, Repr

/-- Function `calculateARScaling` from `arScaling.ts`, lines 61-99.

`Math.max(width, height, depth)` becomes `max width (max height depth)`;
the mutable `let largestAxis = 'width'` followed by the two `if`s becomes
the equivalent `if`-chain; `needsScaling` uses the strict `>`;
`scaleFactor` divides only in the `needsScaling` branch. -/
def calculateARScaling (dimensions : ModelDimensions)
    (maxDimension : Rat := AR_MAX_DIMENSION_METERS) : ARScalingResult :=
  let width := dimensions.width
  let height := dimensions.height
  let depth := dimensions.depth
  let largestDimension := mathMax width (mathMax height depth)
  let largestAxis : Axis :=
    if height ≥ width ∧ height ≥ depth then .height
    else if depth ≥ width ∧ depth ≥ height then .depth
    else .width
  let needsScaling := largestDimension > maxDimension
  let scaleFactor := if needsScaling then maxDimension / largestDimension else 1
  let scaledDimensions : ModelDimensions :=
    { width := width * scaleFactor
      height := height * scaleFactor
      depth := depth * scaleFactor }
  { scaleFactor := scaleFactor
    isScaled := needsScaling
    originalDimensions := dimensions
    scaledDimensions := scaledDimensions
    largestDimension := largestDimension
    largestAxis := largestAxis }

/-- Function `requiresARScaling` from `arScaling.ts`, lines 139-144. -/
def requiresARScaling (dimensions : ModelDimensions)
    (maxDimension : Rat := AR_MAX_DIMENSION_METERS) : Bool :=
  mathMax dimensions.width (mathMax dimensions.height dimensions.depth) > maxDimension

/-! ## GLB scaling service (`glbScaler.ts`)

The gltf-transform scene document is modelled just deeply enough for the
service: a document holds a list of scenes and an optional default-scene
index; a scene holds its root nodes; a node carries a local scale vector
and its child subtrees.  Everything else the serializer may carry is
outside the mutation the service performs and is absorbed into the
abstract `writeBinary`. -/

/-- A 3-component vector (a gltf-transform `vec3`). -/
structure Vec3 where
  x : Rat
  y : Rat
  z : Rat
deriving DecidableEq, Repr

/-- A scene-graph node: local scale plus child subtrees. -/
inductive GNode where
  | node (scale : Vec3) (children : List GNode)
deriving Repr

/-- The local scale vector of a node. -/
def GNode.scale : GNode → Vec3
  | .node s _ => s

/-- The child subtrees of a node. -/
def GNode.childNodes : GNode → List GNode
  | .node _ c => c

/-- A scene: the list of nodes attached directly to the scene root
(gltf-transform `scene.listChildren()`). -/
structure Scene where
  children : List GNode
deriving Repr

/-- A decoded GLB document: its scenes and the optional default scene. -/
structure Document where
  defaultScene : Option Nat
  scenes : List Scene
deriving Repr

/-- Scene selection `document.getRoot().getDefaultScene() || document.getRoot().listScenes()[0]`
from `glbScaler.ts` line 120: the declared default scene if it exists,
else the first scene, else none (`'GLB has no scene'`). -/
def getSelectedScene (d : Document) : Option Nat :=
  match d.defaultScene.bind (fun i => if i < d.scenes.length then some i else none) with
  | some i => some i
  | none => if d.scenes.isEmpty then none else some 0

/-- The loop of `glbScaler.ts` lines 163-170 applied to one root node:
`node.setScale([s[0]*f, s[1]*f, s[2]*f])` — the existing local scale is
multiplied componentwise, the node's children are untouched. -/
def scaleRootNode (scaleFactor : Rat) : GNode → GNode
  | .node s c => .node ⟨s.x * scaleFactor, s.y * scaleFactor, s.z * scaleFactor⟩ c

/-- The loop `for (const node of scene.listChildren())` from `glbScaler.ts`
lines 163-170: every root node of the scene is rescaled. -/
def applyScaleToScene (scaleFactor : Rat) (s : Scene) : Scene :=
  ⟨s.children.map (scaleRootNode scaleFactor)⟩

/-- The in-place mutation of the selected scene inside the document. -/
def applyScaleToDocument (d : Document) (idx : Nat) (scaleFactor : Rat) : Document :=
  { d with scenes := d.scenes.mapIdx (fun j s =>
      if j = idx then applyScaleToScene scaleFactor s else s) }

/-- A `fetch` response: `ok`, `status`, `statusText` and the body bytes. -/
structure FetchResponse where
  ok : Bool
  status : Nat
  statusText : String
  body : List Nat
deriving DecidableEq, Repr

/-- The external collaborators of the service: the network (`fetch`,
which may reject with a transport error or resolve to a response) and
the gltf-transform library (`readBinary`, which may throw on malformed
input; `writeBinary`; `getBounds` returning `(min, max)`). -/
structure GlbEnv where
  fetch : String → Except String FetchResponse
  readBinary : List Nat → Except String Document
  writeBinary : Document → List Nat
  getBounds : Scene → Vec3 × Vec3

/-- The errors `scaleGlbForAR` can throw. -/
inductive GlbError where
  | transport (msg : String)
  | downloadFailed (status : Nat) (statusText : String)
  | decodeFailed (msg : String)
  | noScene
deriving DecidableEq, Repr

/-- The `Error` message carried by each throw site:
`downloadFailed` carries `glbScaler.ts` line 75, `noScene` line 122;
`transport` and `decodeFailed` propagate the underlying message. -/
def GlbError.message : GlbError → String
  | .transport msg => msg
  | .downloadFailed status statusText =>
      "Failed to download GLB: " ++ toString status ++ " " ++ statusText
  | .decodeFailed msg => msg
  | .noScene => "GLB has no scene"

/-- Structure `ScalingResult` from `glbScaler.ts` lines 16-27. -/
structure ScalingResult where
  glbData : List Nat
  scaleFactor : Rat
  wasScaled : Bool
  originalDimensions : ModelDimensions
  scaledDimensions : ModelDimensions
deriving DecidableEq, Repr

/-- Structure `ScalingOptions` from `glbScaler.ts` lines 29-36 (absent optional
fields modelled as `none` / `false`). -/
structure ScalingOptions where
  maxDimension : Option Rat := none
  forceScale : Bool := false
  customScaleFactor : Option Rat := none
deriving DecidableEq, Repr

/-- One entry of `scaledGlbCache`: `{ data, timestamp, result }`. -/
structure CacheEntry where
  data : List Nat
  timestamp : Nat
  result : ScalingResult
deriving DecidableEq, Repr

/-- The module-level `Map<string, CacheEntry>`, modelled as an
insertion-ordered association list (JS `Map` iteration order). -/
abbrev Cache := List (String × CacheEntry)

/-- JS `Map.get`: the value stored at the key, if any. -/
def cacheGet : Cache → String → Option CacheEntry
  | [], _ => none
  | (k', v) :: tl, k => if k' = k then some v else cacheGet tl k

/-- JS `Map.set`: replace in place if the key is present, else append. -/
def cacheSet : Cache → String → CacheEntry → Cache
  | [], k, v => [(k, v)]
  | (k', v') :: tl, k, v =>
      if k' = k then (k, v) :: tl else (k', v') :: cacheSet tl k v

/-- Constant `CACHE_TTL_MS = 60 * 60 * 1000` from `glbScaler.ts` line 43. -/
def CACHE_TTL_MS : Nat := 60 * 60 * 1000

/-- Function `getCacheKey` from `glbScaler.ts` lines 48-50. -/
def getCacheKey (url : String) (maxDimension : Rat) : String :=
  url ++ ":" ++ toString maxDimension

/-- Function `cleanupCache` from `glbScaler.ts` lines 55-62: delete every entry
with `now - value.timestamp > CACHE_TTL_MS`. -/
def cleanupCache (now : Nat) (c : Cache) : Cache :=
  c.filter (fun p => ! decide (now - p.2.timestamp > CACHE_TTL_MS))

/-- Function `downloadGlb` from `glbScaler.ts` lines 67-80: a rejected `fetch`
propagates its own error; a resolved non-`ok` response throws
`Failed to download GLB: ...`; otherwise the body bytes are returned. -/
def downloadGlb (env : GlbEnv) (url : String) : Except GlbError (List Nat) :=
  match env.fetch url with
  | .error msg => .error (.transport msg)
  | .ok resp =>
      if resp.ok then .ok resp.body
      else .error (.downloadFailed resp.status resp.statusText)

/-- The outcome of one `scaleGlbForAR` call: the returned value or the
thrown error, the cache state after the call, and whether the call
performed a network fetch and a binary decode. -/
structure ScaleOutcome where
  result : Except GlbError ScalingResult
  cache : Cache
  fetched : Bool
  decoded : Bool
deriving Repr

/-- The scale decision of `glbScaler.ts` lines 140-152: a supplied
`customScaleFactor` overrides everything (`wasScaled = scaleFactor !== 1.0`);
else `largestDimension > maxDimension || options.forceScale` forces
`scaleFactor = maxDimension / largestDimension` with `wasScaled = true`;
else `(1.0, false)`.  Returns `(scaleFactor, wasScaled)`. -/
def scaleDecision (options : ScalingOptions) (maxDimension largestDimension : Rat) :
    Rat × Bool :=
  match options.customScaleFactor with
  | some c => (c, decide (c ≠ 1))
  | none =>
      if decide (largestDimension > maxDimension) || options.forceScale then
        (maxDimension / largestDimension, true)
      else (1, false)

/-- Lines 125-134 of `glbScaler.ts`: `getBounds(scene)` and the
per-axis extents `bounds.max[i] - bounds.min[i]`. -/
def boundsDims (env : GlbEnv) (document : Document) (idx : Nat) : ModelDimensions :=
  let scene := document.scenes.getD idx ⟨[]⟩
  let bounds := env.getBounds scene
  ⟨bounds.2.x - bounds.1.x, bounds.2.y - bounds.1.y, bounds.2.z - bounds.1.z⟩

/-- Line 137 of `glbScaler.ts`: the largest of the three extents. -/
def boundsLargest (env : GlbEnv) (document : Document) (idx : Nat) : Rat :=
  mathMax (boundsDims env document idx).width
    (mathMax (boundsDims env document idx).height (boundsDims env document idx).depth)

/-- Lines 125-186 of `glbScaler.ts`, after a scene has been selected:
bounds → dimensions → scale decision → conditional root-node rewrite →
re-serialization, assembled into the returned `ScalingResult`.  Note the
document is re-serialized by `writeBinary` whether or not it was scaled. -/
def finishResult (env : GlbEnv) (options : ScalingOptions) (maxDimension : Rat)
    (document : Document) (idx : Nat) : ScalingResult :=
  let originalDimensions := boundsDims env document idx
  let largestDimension := boundsLargest env document idx
  let sw := scaleDecision options maxDimension largestDimension
  let scaleFactor := sw.1
  let wasScaled := sw.2
  let scaledDimensions : ModelDimensions :=
    ⟨originalDimensions.width * scaleFactor, originalDimensions.height * scaleFactor,
     originalDimensions.depth * scaleFactor⟩
  let document2 :=
    if wasScaled then applyScaleToDocument document idx scaleFactor else document
  let outputGlb := env.writeBinary document2
  ⟨outputGlb, scaleFactor, wasScaled, originalDimensions, scaledDimensions⟩

/-- Lines 177-195 of `glbScaler.ts`: the freshly computed result is
stored in the cache (`{ data: outputGlb, timestamp: Date.now(), result }`)
and returned. -/
def scaleGlbFinish (env : GlbEnv) (cache1 : Cache) (now : Nat) (options : ScalingOptions)
    (maxDimension : Rat) (cacheKey : String) (document : Document) (idx : Nat) :
    ScaleOutcome :=
  let result := finishResult env options maxDimension document idx
  ⟨.ok result, cacheSet cache1 cacheKey ⟨result.glbData, now, result⟩, true, true⟩

/-- The cache-miss path of `scaleGlbForAR` (`glbScaler.ts` lines
103-195): opportunistic cleanup when the cache holds more than 50
entries, then download → decode → scene selection → the finishing
stage above. -/
def scaleGlbPipeline (env : GlbEnv) (cache : Cache) (now : Nat) (glbUrl : String)
    (options : ScalingOptions) (maxDimension : Rat) (cacheKey : String) : ScaleOutcome :=
  let cache1 := if cache.length > 50 then cleanupCache now cache else cache
  match downloadGlb env glbUrl with
  | .error e => ⟨.error e, cache1, true, false⟩
  | .ok glbData =>
    match env.readBinary glbData with
    | .error msg => ⟨.error (.decodeFailed msg), cache1, true, true⟩
    | .ok document =>
      match getSelectedScene document with
      | none => ⟨.error .noScene, cache1, true, true⟩
      | some idx => scaleGlbFinish env cache1 now options maxDimension cacheKey document idx

/-- The resolved maximum dimension of a request, `glbScaler.ts` line 93:
`options.maxDimension ?? AR_MAX_DIMENSION_METERS`. -/
def resolvedMax (options : ScalingOptions) : Rat :=
  options.maxDimension.getD AR_MAX_DIMENSION_METERS

/-- The cache key a request uses, `glbScaler.ts` line 94. -/
def requestKey (glbUrl : String) (options : ScalingOptions) : String :=
  getCacheKey glbUrl (resolvedMax options)

/-- Function `scaleGlbForAR` from `glbScaler.ts` lines 89-196: resolve
`maxDimension` (`options.maxDimension ?? AR_MAX_DIMENSION_METERS`),
compute the cache key, return the cached result when the entry is
younger than the TTL, otherwise run the full pipeline. -/
def scaleGlbForAR (env : GlbEnv) (cache : Cache) (now : Nat)
    (glbUrl : String) (options : ScalingOptions) : ScaleOutcome :=
  match cacheGet cache (requestKey glbUrl options) with
  | some cached =>
      if now - cached.timestamp < CACHE_TTL_MS then
        ⟨.ok cached.result, cache, false, false⟩
      else
        scaleGlbPipeline env cache now glbUrl options (resolvedMax options)
          (requestKey glbUrl options)
  | none =>
      scaleGlbPipeline env cache now glbUrl options (resolvedMax options)
        (requestKey glbUrl options)

/-! ## Projections of the finishing stage -/

theorem finishResult_scaleFactor (env : GlbEnv) (options : ScalingOptions)
    (maxDimension : Rat) (document : Document) (idx : Nat) :
    (finishResult env options maxDimension document idx).scaleFactor =
      (scaleDecision options maxDimension (boundsLargest env document idx)).1 := rfl

theorem finishResult_wasScaled (env : GlbEnv) (options : ScalingOptions)
    (maxDimension : Rat) (document : Document) (idx : Nat) :
    (finishResult env options maxDimension document idx).wasScaled =
      (scaleDecision options maxDimension (boundsLargest env document idx)).2 := rfl

theorem finishResult_originalDimensions (env : GlbEnv) (options : ScalingOptions)
    (maxDimension : Rat) (document : Document) (idx : Nat) :
    (finishResult env options maxDimension document idx).originalDimensions =
      boundsDims env document idx := rfl

theorem finishResult_scaledDimensions (env : GlbEnv) (options : ScalingOptions)
    (maxDimension : Rat) (document : Document) (idx : Nat) :
    (finishResult env options maxDimension document idx).scaledDimensions =
      ⟨(finishResult env options maxDimension document idx).originalDimensions.width *
         (finishResult env options maxDimension document idx).scaleFactor,
       (finishResult env options maxDimension document idx).originalDimensions.height *
         (finishResult env options maxDimension document idx).scaleFactor,
       (finishResult env options maxDimension document idx).originalDimensions.depth *
         (finishResult env options maxDimension document idx).scaleFactor⟩ := rfl

theorem finishResult_glbData (env : GlbEnv) (options : ScalingOptions)
    (maxDimension : Rat) (document : Document) (idx : Nat) :
    (finishResult env options maxDimension document idx).glbData =
      env.writeBinary
        (if (finishResult env options maxDimension document idx).wasScaled then
          applyScaleToDocument document idx
            (finishResult env options maxDimension document idx).scaleFactor
        else document) := rfl

/-- The scale decision when a custom factor is supplied. -/
theorem scaleDecision_custom (options : ScalingOptions) (maxDimension L c : Rat)
    (h : options.customScaleFactor = some c) :
    scaleDecision options maxDimension L = (c, decide (c ≠ 1)) := by
  unfold scaleDecision
  rw [h]

/-- The automatic scale decision without `forceScale`. -/
theorem scaleDecision_auto (options : ScalingOptions) (maxDimension L : Rat)
    (h : options.customScaleFactor = none) (hf : options.forceScale = false) :
    scaleDecision options maxDimension L =
      if maxDimension < L then (maxDimension / L, true) else (1, false) := by
  unfold scaleDecision
  rw [h, hf]
  by_cases hL : maxDimension < L <;> simp [hL]

/-- The scale decision under `forceScale`. -/
theorem scaleDecision_force (options : ScalingOptions) (maxDimension L : Rat)
    (h : options.customScaleFactor = none) (hf : options.forceScale = true) :
    scaleDecision options maxDimension L = (maxDimension / L, true) := by
  unfold scaleDecision
  rw [h, hf]
  simp

/-- A positive bound strictly exceeded forces a scale factor below one. -/
theorem div_ne_one_of_lt (maxDimension L : Rat) (h0 : 0 < maxDimension)
    (hlt : maxDimension < L) : maxDimension / L ≠ 1 := by
  have hL : L ≠ 0 := ne_of_gt (h0.trans hlt)
  rw [Ne, div_eq_one_iff_eq hL]
  exact ne_of_lt hlt

/-! ## Claims about the scaling calculator -/

/-- The `largestAxis` chain of `calculateARScaling`, as an explicit
conditional. -/
theorem calculateARScaling_largestAxis (dims : ModelDimensions) (maxDimension : Rat) :
    (calculateARScaling dims maxDimension).largestAxis =
      (if dims.height ≥ dims.width ∧ dims.height ≥ dims.depth then Axis.height
       else if dims.depth ≥ dims.width ∧ dims.depth ≥ dims.height then Axis.depth
       else Axis.width) := rfl


/-! ## Cache lemmas -/

/-- A `Map.set` followed by `Map.get` at the same key yields the stored value. -/
theorem cacheGet_cacheSet_self (c : Cache) (k : String) (v : CacheEntry) :
    cacheGet (cacheSet c k v) k = some v := by
  induction c with
  | nil => simp [cacheSet, cacheGet]
  | cons hd tl ih =>
      rcases hd with ⟨k', v'⟩
      by_cases h : k' = k
      · simp [cacheSet, cacheGet, h]
      · simp [cacheSet, cacheGet, h, ih]

/-- A key absent from the association list is not found. -/
theorem cacheGet_eq_none (c : Cache) (k : String) (h : k ∉ c.map Prod.fst) :
    cacheGet c k = none := by
  induction c with
  | nil => rfl
  | cons hd tl ih =>
      rcases hd with ⟨k', v'⟩
      simp only [List.map_cons, List.mem_cons] at h
      push_neg at h
      have hk : ¬ k' = k := fun hk => h.1 hk.symm
      simp [cacheGet, hk, ih h.2]

/-- A found key is present in the association list. -/
theorem mem_of_cacheGet_some (c : Cache) (k : String) (e : CacheEntry)
    (h : cacheGet c k = some e) : k ∈ c.map Prod.fst := by
  induction c with
  | nil => simp [cacheGet] at h
  | cons hd tl ih =>
      rcases hd with ⟨k', v'⟩
      by_cases hk : k' = k
      · simp [hk]
      · simp only [cacheGet, if_neg hk] at h
        simp [ih h]

/-- The sweep `cleanupCache` only removes entries: every key surviving the sweep
was present before. -/
theorem mem_of_mem_cleanupCache (now : Nat) (c : Cache) (k : String)
    (h : k ∈ (cleanupCache now c).map Prod.fst) : k ∈ c.map Prod.fst := by
  rcases List.mem_map.1 h with ⟨p, hp, hpk⟩
  exact List.mem_map.2 ⟨p, List.mem_of_mem_filter hp, hpk⟩

/-- Unfolding `cleanupCache` over the head entry. -/
theorem cleanupCache_cons (now : Nat) (k' : String) (v' : CacheEntry) (tl : Cache) :
    cleanupCache now ((k', v') :: tl) =
      if CACHE_TTL_MS < now - v'.timestamp then cleanupCache now tl
      else (k', v') :: cleanupCache now tl := by
  by_cases h : CACHE_TTL_MS < now - v'.timestamp <;>
    simp [cleanupCache, List.filter_cons, h]

/-- On a duplicate-free cache (the JS `Map` guarantees unique keys),
every entry found after a sweep was stored unchanged before the sweep. -/
theorem cacheGet_cleanupCache (now : Nat) (c : Cache) (k : String) (e : CacheEntry)
    (hnodup : (c.map Prod.fst).Nodup)
    (h : cacheGet (cleanupCache now c) k = some e) : cacheGet c k = some e := by
  induction c with
  | nil => simpa [cleanupCache] using h
  | cons hd tl ih =>
      rcases hd with ⟨k', v'⟩
      simp only [List.map_cons, List.nodup_cons] at hnodup
      rw [cleanupCache_cons] at h
      by_cases hexp : CACHE_TTL_MS < now - v'.timestamp
      · rw [if_pos hexp] at h
        by_cases hk : k' = k
        · subst hk
          have hmem : k' ∈ (cleanupCache now tl).map Prod.fst :=
            mem_of_cacheGet_some _ _ _ h
          exact absurd (mem_of_mem_cleanupCache now tl k' hmem) hnodup.1
        · simp only [cacheGet, if_neg hk]
          exact ih hnodup.2 h
      · rw [if_neg hexp] at h
        by_cases hk : k' = k
        · simp only [cacheGet, if_pos hk] at h ⊢
          exact h
        · simp only [cacheGet, if_neg hk] at h ⊢
          exact ih hnodup.2 h

/-- An entry that is not yet strictly past the TTL survives `cleanupCache`. -/
theorem cacheGet_cleanupCache_fresh (now : Nat) (c : Cache) (k : String) (e : CacheEntry)
    (h : cacheGet c k = some e) (hfresh : ¬ CACHE_TTL_MS < now - e.timestamp) :
    cacheGet (cleanupCache now c) k = some e := by
  induction c with
  | nil => simp [cacheGet] at h
  | cons hd tl ih =>
      rcases hd with ⟨k', v'⟩
      rw [cleanupCache_cons]
      by_cases hk : k' = k
      · subst hk
        simp only [cacheGet, if_pos rfl] at h
        obtain rfl : v' = e := by injection h
        rw [if_neg hfresh]
        simp [cacheGet]
      · simp only [cacheGet, if_neg hk] at h
        by_cases hexp : CACHE_TTL_MS < now - v'.timestamp
        · rw [if_pos hexp]
          exact ih h
        · rw [if_neg hexp]
          simp only [cacheGet, if_neg hk]
          exact ih h

/-! ## Service-level lemmas -/

/-- A fresh cached entry short-circuits the whole call: the cached
result is returned, the cache is untouched, no fetch and no decode. -/
theorem scaleGlbForAR_hit (env : GlbEnv) (cache : Cache) (now : Nat) (glbUrl : String)
    (options : ScalingOptions) (e : CacheEntry)
    (hc : cacheGet cache (requestKey glbUrl options) = some e)
    (hfresh : now - e.timestamp < CACHE_TTL_MS) :
    scaleGlbForAR env cache now glbUrl options = ⟨.ok e.result, cache, false, false⟩ := by
  unfold scaleGlbForAR
  rw [hc]
  simp [hfresh]

/-- A stale cached entry falls through to the full pipeline. -/
theorem scaleGlbForAR_stale (env : GlbEnv) (cache : Cache) (now : Nat) (glbUrl : String)
    (options : ScalingOptions) (e : CacheEntry)
    (hc : cacheGet cache (requestKey glbUrl options) = some e)
    (hstale : ¬ now - e.timestamp < CACHE_TTL_MS) :
    scaleGlbForAR env cache now glbUrl options =
      scaleGlbPipeline env cache now glbUrl options (resolvedMax options)
        (requestKey glbUrl options) := by
  unfold scaleGlbForAR
  rw [hc]
  simp [hstale]

/-- A missing cache entry falls through to the full pipeline. -/
theorem scaleGlbForAR_miss (env : GlbEnv) (cache : Cache) (now : Nat) (glbUrl : String)
    (options : ScalingOptions)
    (hc : cacheGet cache (requestKey glbUrl options) = none) :
    scaleGlbForAR env cache now glbUrl options =
      scaleGlbPipeline env cache now glbUrl options (resolvedMax options)
        (requestKey glbUrl options) := by
  unfold scaleGlbForAR
  rw [hc]

/-- The pipeline always downloads. -/
theorem scaleGlbPipeline_fetched (env : GlbEnv) (cache : Cache) (now : Nat)
    (glbUrl : String) (options : ScalingOptions) (maxDimension : Rat) (cacheKey : String) :
    (scaleGlbPipeline env cache now glbUrl options maxDimension cacheKey).fetched = true := by
  rcases hdl : downloadGlb env glbUrl with e | bytes
  · simp [scaleGlbPipeline, hdl]
  · rcases hrb : env.readBinary bytes with msg | document
    · simp [scaleGlbPipeline, hdl, hrb]
    · rcases hs : getSelectedScene document with _ | idx
      · simp [scaleGlbPipeline, hdl, hrb, hs]
      · simp [scaleGlbPipeline, hdl, hrb, hs, scaleGlbFinish]

/-- A call that fetched took the pipeline path. -/
theorem scaleGlbForAR_eq_pipeline_of_fetched (env : GlbEnv) (cache : Cache) (now : Nat)
    (glbUrl : String) (options : ScalingOptions)
    (h : (scaleGlbForAR env cache now glbUrl options).fetched = true) :
    scaleGlbForAR env cache now glbUrl options =
      scaleGlbPipeline env cache now glbUrl options (resolvedMax options)
        (requestKey glbUrl options) := by
  rcases hc : cacheGet cache (requestKey glbUrl options) with _ | e
  · exact scaleGlbForAR_miss env cache now glbUrl options hc
  · by_cases hfresh : now - e.timestamp < CACHE_TTL_MS
    · rw [scaleGlbForAR_hit env cache now glbUrl options e hc hfresh] at h
      simp at h
    · exact scaleGlbForAR_stale env cache now glbUrl options e hc hfresh

/-- Inversion of a successful pipeline run: the download, decode and
scene selection succeeded, the returned result is the computed
`finishResult`, and the final cache stores it at the request key with
the current timestamp. -/
theorem scaleGlbPipeline_ok (env : GlbEnv) (cache : Cache) (now : Nat)
    (glbUrl : String) (options : ScalingOptions) (maxDimension : Rat) (cacheKey : String)
    (r : ScalingResult)
    (h : (scaleGlbPipeline env cache now glbUrl options maxDimension cacheKey).result = .ok r) :
    ∃ bytes document idx,
      downloadGlb env glbUrl = .ok bytes ∧
      env.readBinary bytes = .ok document ∧
      getSelectedScene document = some idx ∧
      r = finishResult env options maxDimension document idx ∧
      scaleGlbPipeline env cache now glbUrl options maxDimension cacheKey =
        ⟨.ok r,
         cacheSet (if cache.length > 50 then cleanupCache now cache else cache) cacheKey
           ⟨r.glbData, now, r⟩, true, true⟩ := by
  rcases hdl : downloadGlb env glbUrl with e | bytes
  · simp [scaleGlbPipeline, hdl] at h
  · rcases hrb : env.readBinary bytes with msg | document
    · simp [scaleGlbPipeline, hdl, hrb] at h
    · rcases hs : getSelectedScene document with _ | idx
      · simp [scaleGlbPipeline, hdl, hrb, hs] at h
      · refine ⟨bytes, document, idx, rfl, hrb, hs, ?_, ?_⟩
        · simpa [scaleGlbPipeline, hdl, hrb, hs, scaleGlbFinish] using h.symm
        · have hr : r = finishResult env options maxDimension document idx := by
            simpa [scaleGlbPipeline, hdl, hrb, hs, scaleGlbFinish] using h.symm
          simp [scaleGlbPipeline, hdl, hrb, hs, scaleGlbFinish, hr]

/-- The pipeline error cases leave the cache at its post-sweep state:
no entry is added or modified. -/
theorem scaleGlbPipeline_error (env : GlbEnv) (cache : Cache) (now : Nat)
    (glbUrl : String) (options : ScalingOptions) (maxDimension : Rat) (cacheKey : String)
    (err : GlbError)
    (h : (scaleGlbPipeline env cache now glbUrl options maxDimension cacheKey).result =
      .error err) :
    (scaleGlbPipeline env cache now glbUrl options maxDimension cacheKey).cache =
      (if cache.length > 50 then cleanupCache now cache else cache) := by
  rcases hdl : downloadGlb env glbUrl with e | bytes
  · simp [scaleGlbPipeline, hdl]
  · rcases hrb : env.readBinary bytes with msg | document
    · simp [scaleGlbPipeline, hdl, hrb]
    · rcases hs : getSelectedScene document with _ | idx
      · simp [scaleGlbPipeline, hdl, hrb, hs]
      · simp [scaleGlbPipeline, hdl, hrb, hs, scaleGlbFinish] at h

/-- The pipeline outcome when the download throws. -/
theorem scaleGlbPipeline_download_error (env : GlbEnv) (cache : Cache) (now : Nat)
    (glbUrl : String) (options : ScalingOptions) (maxDimension : Rat) (cacheKey : String)
    (err : GlbError) (h : downloadGlb env glbUrl = .error err) :
    scaleGlbPipeline env cache now glbUrl options maxDimension cacheKey =
      ⟨.error err, if cache.length > 50 then cleanupCache now cache else cache,
       true, false⟩ := by
  simp [scaleGlbPipeline, h]


/-! ## Claim C3 -/

/-- C3 (confirmed): `calculateARScaling` resolves `largestAxis` by
checking `height >= width && height >= depth` first, else
`depth >= width && depth >= height`, else `width`; consequently
`{5,5,3}` gives `height`, `{5,3,5}` gives `depth` and `{5,3,3}` gives
`width` — height wins ties over width and depth, and depth wins ties
over width. -/
theorem C3_largestAxis_resolution :
    (∀ (dims : ModelDimensions) (maxDimension : Rat),
      (calculateARScaling dims maxDimension).largestAxis =
        (if dims.height ≥ dims.width ∧ dims.height ≥ dims.depth then Axis.height
         else if dims.depth ≥ dims.width ∧ dims.depth ≥ dims.height then Axis.depth
         else Axis.width)) ∧
    (calculateARScaling ⟨5, 5, 3⟩ 2).largestAxis = Axis.height ∧
    (calculateARScaling ⟨5, 3, 5⟩ 2).largestAxis = Axis.depth ∧
    (calculateARScaling ⟨5, 3, 3⟩ 2).largestAxis = Axis.width :=
  ⟨calculateARScaling_largestAxis, by decide, by decide, by decide⟩

/-! ## Claim C4 -/

/-- C4 counterexample: `{width:5, height:5, depth:3}` has width and
height exactly tied for the maximum; the claim predicts `width`, the
code reports `height`. -/
theorem C4_counterexample :
    (calculateARScaling ⟨5, 5, 3⟩ 2).largestAxis = Axis.height ∧
    (calculateARScaling ⟨5, 5, 3⟩ 2).largestAxis ≠ Axis.width :=
  ⟨by decide, by decide⟩

/-- C4 (corrected): on exact ties the winning axis follows the
precedence height, then depth, then width: `height` is reported whenever
height attains the maximum (in particular when `width == height ≥ depth`),
`depth` when height does not attain the maximum but depth does, and
`width` only when width is the strict maximum. -/
theorem C4_tiebreak_precedence (dims : ModelDimensions) (maxDimension : Rat) :
    (dims.height = mathMax dims.width (mathMax dims.height dims.depth) →
      (calculateARScaling dims maxDimension).largestAxis = Axis.height) ∧
    (dims.height < mathMax dims.width (mathMax dims.height dims.depth) →
      dims.depth = mathMax dims.width (mathMax dims.height dims.depth) →
      (calculateARScaling dims maxDimension).largestAxis = Axis.depth) ∧
    (dims.height < mathMax dims.width (mathMax dims.height dims.depth) →
      dims.depth < mathMax dims.width (mathMax dims.height dims.depth) →
      (calculateARScaling dims maxDimension).largestAxis = Axis.width) := by
  rcases dims with ⟨w, h, d⟩
  simp only [mathMax_eq_max, calculateARScaling_largestAxis]
  refine ⟨?_, ?_, ?_⟩
  · intro hEq
    have h1 : w ≤ h := (le_max_left w (max h d)).trans hEq.symm.le
    have h2 : d ≤ h := ((le_max_right h d).trans (le_max_right w (max h d))).trans hEq.symm.le
    rw [if_pos ⟨h1, h2⟩]
  · intro hlt hEq
    have hnot : ¬ (h ≥ w ∧ h ≥ d) := by
      rintro ⟨hw, hd⟩
      exact absurd hlt (not_lt.mpr (max_le hw (max_le le_rfl hd)))
    have h1 : w ≤ d := (le_max_left w (max h d)).trans hEq.symm.le
    have h2 : h ≤ d := (hlt.trans_le hEq.symm.le).le
    rw [if_neg hnot, if_pos ⟨h1, h2⟩]
  · intro hlth hltd
    have hnot1 : ¬ (h ≥ w ∧ h ≥ d) := by
      rintro ⟨hw, hd⟩
      exact absurd hlth (not_lt.mpr (max_le hw (max_le le_rfl hd)))
    have hnot2 : ¬ (d ≥ w ∧ d ≥ h) := by
      rintro ⟨hw, hh⟩
      exact absurd hltd (not_lt.mpr (max_le hw (max_le hh le_rfl)))
    rw [if_neg hnot1, if_neg hnot2]

/-- C4 witness: the amended precedence at the concrete tie `{5,5,3}`. -/
theorem C4_tiebreak_precedence_witness :
    (5 : Rat) = mathMax 5 (mathMax 5 3) ∧
    (calculateARScaling ⟨5, 5, 3⟩ 2).largestAxis = Axis.height :=
  ⟨by decide, (C4_tiebreak_precedence ⟨5, 5, 3⟩ 2).1 (by decide)⟩

/-! ## Claim C5 -/

/-- C5 (confirmed): whenever the largest dimension is at most
`maxDimension` — including a model exactly at the limit, since
`needsScaling` uses strict `>` — `calculateARScaling` returns
`scaleFactor = 1.0`, `isScaled = false` and scaled dimensions equal to
the original dimensions. -/
theorem C5_at_or_below_limit_not_scaled (dims : ModelDimensions) (maxDimension : Rat)
    (hle : mathMax dims.width (mathMax dims.height dims.depth) ≤ maxDimension) :
    (calculateARScaling dims maxDimension).scaleFactor = 1 ∧
    (calculateARScaling dims maxDimension).isScaled = false ∧
    (calculateARScaling dims maxDimension).scaledDimensions = dims ∧
    (calculateARScaling dims maxDimension).originalDimensions = dims := by
  rcases dims with ⟨w, h, d⟩
  have hns : ¬ (mathMax w (mathMax h d) > maxDimension) := not_lt.mpr hle
  refine ⟨?_, ?_, ?_, ?_⟩ <;> simp [calculateARScaling, hns]

/-- C5 witness: a model exactly at the 2 m limit is not scaled. -/
theorem C5_at_or_below_limit_not_scaled_witness :
    mathMax (1 : Rat) (mathMax 2 1) ≤ 2 ∧
    (calculateARScaling ⟨1, 2, 1⟩ 2).scaleFactor = 1 ∧
    (calculateARScaling ⟨1, 2, 1⟩ 2).isScaled = false ∧
    (calculateARScaling ⟨1, 2, 1⟩ 2).scaledDimensions = ⟨1, 2, 1⟩ := by
  have h := C5_at_or_below_limit_not_scaled ⟨1, 2, 1⟩ 2 (by decide)
  exact ⟨by decide, h.1, h.2.1, h.2.2.1⟩

/-! ## Claim C6 -/

/-- C6 (confirmed): the all-zero model (and generally any model whose
largest extent is 0) with a positive `maxDimension` is a valid non-error
outcome: `scaleFactor = 1.0`, `isScaled = false`, scaled extents all 0.
The division branch is never taken, so no division by zero occurs; in
this `Rat` model no `NaN` exists and every field is the stated rational. -/
theorem C6_degenerate_zero (maxDimension : Rat) (hpos : 0 < maxDimension) :
    ((calculateARScaling ⟨0, 0, 0⟩ maxDimension).scaleFactor = 1 ∧
     (calculateARScaling ⟨0, 0, 0⟩ maxDimension).isScaled = false ∧
     (calculateARScaling ⟨0, 0, 0⟩ maxDimension).scaledDimensions = ⟨0, 0, 0⟩) ∧
    (∀ dims : ModelDimensions,
      mathMax dims.width (mathMax dims.height dims.depth) = 0 →
      (calculateARScaling dims maxDimension).scaleFactor = 1 ∧
      (calculateARScaling dims maxDimension).isScaled = false) := by
  have general : ∀ dims : ModelDimensions,
      mathMax dims.width (mathMax dims.height dims.depth) = 0 →
      (calculateARScaling dims maxDimension).scaleFactor = 1 ∧
      (calculateARScaling dims maxDimension).isScaled = false := by
    intro dims h0
    have hns : ¬ (mathMax dims.width (mathMax dims.height dims.depth) > maxDimension) :=
      not_lt.mpr (h0.le.trans hpos.le)
    constructor <;> simp [calculateARScaling, hns]
  refine ⟨?_, general⟩
  have hg := general ⟨0, 0, 0⟩ (by decide)
  refine ⟨hg.1, hg.2, ?_⟩
  simp [calculateARScaling]

/-- C6 witness: the degenerate model at the default 2 m bound. -/
theorem C6_degenerate_zero_witness :
    (0 : Rat) < 2 ∧
    (calculateARScaling ⟨0, 0, 0⟩ 2).scaleFactor = 1 ∧
    (calculateARScaling ⟨0, 0, 0⟩ 2).isScaled = false ∧
    (calculateARScaling ⟨0, 0, 0⟩ 2).scaledDimensions = ⟨0, 0, 0⟩ := by
  have h := C6_degenerate_zero 2 (by decide)
  exact ⟨by decide, h.1.1, h.1.2.1, h.1.2.2⟩


/-! ## Claim C2 -/

/-- A concrete GLB URL for the C2 scenarios. -/
def urlC2 : String := "https://example.org/model.glb"

/-- A concrete environment for C2: the decoded model is 2 m wide — its
largest extent exactly equals the default 2 m bound. -/
def envC2 : GlbEnv :=
  { fetch := fun _ => .ok ⟨true, 200, "OK", [1, 2, 3]⟩
    readBinary := fun _ => .ok ⟨none, [⟨[.node ⟨1, 1, 1⟩ []]⟩]⟩
    writeBinary := fun _ => [9]
    getBounds := fun _ => (⟨0, 0, 0⟩, ⟨2, 1, 1⟩) }

/-- C2 counterexample: a model whose largest extent exactly equals the
2 m bound, requested with `forceScale`: the code recomputes
`scaleFactor = 2/2 = 1.0` yet sets `wasScaled = true`, so the claimed
equivalence `isScaled == (scaleFactor != 1.0)` fails on this result. -/
theorem C2_counterexample :
    (scaleGlbForAR envC2 [] 0 urlC2 { forceScale := true }).result =
      .ok ⟨[9], 1, true, ⟨2, 1, 1⟩, ⟨2, 1, 1⟩⟩ ∧
    ((true : Bool) = decide ((1 : Rat) ≠ 1) → False) :=
  ⟨by with_unfolding_all rfl, by decide⟩

/-- C2 (corrected): the invariant holds except under `forceScale`.
(1) For `calculateARScaling` with positive `maxDimension`,
`scaledDimensions` is `originalDimensions` multiplied componentwise by
the single `scaleFactor`, and `isScaled` holds iff `scaleFactor ≠ 1.0`.
(2) Every result computed by `scaleGlbForAR`'s pipeline satisfies the
componentwise equation.  (3) With `customScaleFactor` supplied,
`wasScaled` holds iff `scaleFactor ≠ 1.0`.  (4) The same equivalence
holds on the automatic path when `forceScale` is not set and the
resolved `maxDimension` is positive; under `forceScale` the code sets
`wasScaled = true` even when the recomputed factor is 1.0 (largest
extent exactly at the bound), which is the counterexample. -/
theorem C2_invariants :
    (∀ (dims : ModelDimensions) (maxDimension : Rat), 0 < maxDimension →
      (calculateARScaling dims maxDimension).scaledDimensions =
        ⟨dims.width * (calculateARScaling dims maxDimension).scaleFactor,
         dims.height * (calculateARScaling dims maxDimension).scaleFactor,
         dims.depth * (calculateARScaling dims maxDimension).scaleFactor⟩ ∧
      ((calculateARScaling dims maxDimension).isScaled = true ↔
        (calculateARScaling dims maxDimension).scaleFactor ≠ 1)) ∧
    (∀ (env : GlbEnv) (cache : Cache) (now : Nat) (glbUrl : String)
        (options : ScalingOptions) (r : ScalingResult),
      (scaleGlbForAR env cache now glbUrl options).fetched = true →
      (scaleGlbForAR env cache now glbUrl options).result = .ok r →
      r.scaledDimensions =
        ⟨r.originalDimensions.width * r.scaleFactor,
         r.originalDimensions.height * r.scaleFactor,
         r.originalDimensions.depth * r.scaleFactor⟩) ∧
    (∀ (env : GlbEnv) (cache : Cache) (now : Nat) (glbUrl : String)
        (options : ScalingOptions) (r : ScalingResult) (c : Rat),
      options.customScaleFactor = some c →
      (scaleGlbForAR env cache now glbUrl options).fetched = true →
      (scaleGlbForAR env cache now glbUrl options).result = .ok r →
      (r.wasScaled = true ↔ r.scaleFactor ≠ 1)) ∧
    (∀ (env : GlbEnv) (cache : Cache) (now : Nat) (glbUrl : String)
        (options : ScalingOptions) (r : ScalingResult),
      options.customScaleFactor = none → options.forceScale = false →
      0 < resolvedMax options →
      (scaleGlbForAR env cache now glbUrl options).fetched = true →
      (scaleGlbForAR env cache now glbUrl options).result = .ok r →
      (r.wasScaled = true ↔ r.scaleFactor ≠ 1)) := by
  refine ⟨?_, ?_, ?_, ?_⟩
  · intro dims maxDimension hpos
    refine ⟨rfl, ?_⟩
    by_cases hn : mathMax dims.width (mathMax dims.height dims.depth) > maxDimension
    · have hsf : (calculateARScaling dims maxDimension).scaleFactor =
          maxDimension / mathMax dims.width (mathMax dims.height dims.depth) := by
        simp [calculateARScaling, hn]
      have his : (calculateARScaling dims maxDimension).isScaled = true := by
        simp [calculateARScaling, hn]
      rw [hsf, his]
      simpa using div_ne_one_of_lt maxDimension _ hpos hn
    · have hsf : (calculateARScaling dims maxDimension).scaleFactor = 1 := by
        simp [calculateARScaling, hn]
      have his : (calculateARScaling dims maxDimension).isScaled = false := by
        simp [calculateARScaling, hn]
      rw [hsf, his]
      simp
  · intro env cache now glbUrl options r hf hok
    rw [scaleGlbForAR_eq_pipeline_of_fetched env cache now glbUrl options hf] at hok
    obtain ⟨bytes, document, idx, hdl, hrb, hs, hr, hout⟩ :=
      scaleGlbPipeline_ok env cache now glbUrl options (resolvedMax options)
        (requestKey glbUrl options) r hok
    subst hr
    exact finishResult_scaledDimensions env options (resolvedMax options) document idx
  · intro env cache now glbUrl options r c hcus hf hok
    rw [scaleGlbForAR_eq_pipeline_of_fetched env cache now glbUrl options hf] at hok
    obtain ⟨bytes, document, idx, hdl, hrb, hs, hr, hout⟩ :=
      scaleGlbPipeline_ok env cache now glbUrl options (resolvedMax options)
        (requestKey glbUrl options) r hok
    subst hr
    rw [finishResult_wasScaled, finishResult_scaleFactor,
      scaleDecision_custom options (resolvedMax options) _ c hcus]
    simp
  · intro env cache now glbUrl options r hcus hforce hpos hf hok
    rw [scaleGlbForAR_eq_pipeline_of_fetched env cache now glbUrl options hf] at hok
    obtain ⟨bytes, document, idx, hdl, hrb, hs, hr, hout⟩ :=
      scaleGlbPipeline_ok env cache now glbUrl options (resolvedMax options)
        (requestKey glbUrl options) r hok
    subst hr
    rw [finishResult_wasScaled, finishResult_scaleFactor,
      scaleDecision_auto options (resolvedMax options) _ hcus hforce]
    by_cases hL : resolvedMax options < boundsLargest env document idx
    · rw [if_pos hL]
      simpa using div_ne_one_of_lt (resolvedMax options) _ hpos hL
    · rw [if_neg hL]
      simp

/-- C2 witness: the invariant theorem applied at concrete inputs — the
calculator at `{50,30,20}` with the 2 m bound, and the service at the
2 m-wide test model with a custom factor 3 and with default options. -/
theorem C2_invariants_witness :
    ((0 : Rat) < 2 ∧
      ((calculateARScaling ⟨50, 30, 20⟩ 2).isScaled = true ↔
        (calculateARScaling ⟨50, 30, 20⟩ 2).scaleFactor ≠ 1)) ∧
    ((scaleGlbForAR envC2 [] 0 urlC2 {}).fetched = true ∧
      (scaleGlbForAR envC2 [] 0 urlC2 {}).result =
        .ok ⟨[9], 1, false, ⟨2, 1, 1⟩, ⟨2, 1, 1⟩⟩ ∧
      (⟨[9], 1, false, ⟨2, 1, 1⟩, ⟨2, 1, 1⟩⟩ : ScalingResult).scaledDimensions =
        ⟨2 * 1, 1 * 1, 1 * 1⟩) ∧
    ((scaleGlbForAR envC2 [] 0 urlC2 { customScaleFactor := some 3 }).result =
        .ok ⟨[9], 3, true, ⟨2, 1, 1⟩, ⟨6, 3, 3⟩⟩ ∧
      ((⟨[9], 3, true, ⟨2, 1, 1⟩, ⟨6, 3, 3⟩⟩ : ScalingResult).wasScaled = true ↔
        (⟨[9], 3, true, ⟨2, 1, 1⟩, ⟨6, 3, 3⟩⟩ : ScalingResult).scaleFactor ≠ 1)) ∧
    ((⟨[9], 1, false, ⟨2, 1, 1⟩, ⟨2, 1, 1⟩⟩ : ScalingResult).wasScaled = true ↔
      (⟨[9], 1, false, ⟨2, 1, 1⟩, ⟨2, 1, 1⟩⟩ : ScalingResult).scaleFactor ≠ 1) := by
  have hok1 : (scaleGlbForAR envC2 [] 0 urlC2 {}).result =
      .ok ⟨[9], 1, false, ⟨2, 1, 1⟩, ⟨2, 1, 1⟩⟩ := by with_unfolding_all rfl
  have hok3 : (scaleGlbForAR envC2 [] 0 urlC2 { customScaleFactor := some 3 }).result =
      .ok ⟨[9], 3, true, ⟨2, 1, 1⟩, ⟨6, 3, 3⟩⟩ := by with_unfolding_all rfl
  refine ⟨⟨by decide, (C2_invariants.1 ⟨50, 30, 20⟩ 2 (by decide)).2⟩, ⟨rfl, hok1, ?_⟩, ⟨hok3, ?_⟩, ?_⟩
  · exact C2_invariants.2.1 envC2 [] 0 urlC2 {} _ rfl hok1
  · exact C2_invariants.2.2.1 envC2 [] 0 urlC2 { customScaleFactor := some 3 } _ 3 rfl rfl hok3
  · exact C2_invariants.2.2.2 envC2 [] 0 urlC2 {} _ rfl rfl (by decide) rfl hok1

/-! ## Claim C1 -/

/-- A concrete GLB URL for the C1 scenarios. -/
def urlC1 : String := "https://example.org/a.glb"

/-- A concrete environment for C1: the download yields `[1,2,3]`, the
decoded model fits the bound, and the serializer re-encodes the
document as `[0]`. -/
def envC1 : GlbEnv :=
  { fetch := fun _ => .ok ⟨true, 200, "OK", [1, 2, 3]⟩
    readBinary := fun _ => .ok ⟨none, [⟨[.node ⟨1, 1, 1⟩ []]⟩]⟩
    writeBinary := fun _ => [0]
    getBounds := fun _ => (⟨0, 0, 0⟩, ⟨1, 1, 1⟩) }

/-- C1 counterexample: the downloaded bytes are `[1,2,3]` and the result
is unscaled (`wasScaled = false`), yet the returned and cached payload
is the serializer's output `[0]`: `scaleGlbForAR` always returns
`io.writeBinary(document)` (line 178), never the downloaded `glbData`,
so byte identity depends entirely on the serializer round-tripping. -/
theorem C1_counterexample :
    downloadGlb envC1 urlC1 = .ok [1, 2, 3] ∧
    (scaleGlbForAR envC1 [] 0 urlC1 {}).result =
      .ok ⟨[0], 1, false, ⟨1, 1, 1⟩, ⟨1, 1, 1⟩⟩ ∧
    ([0] ≠ ([1, 2, 3] : List Nat)) :=
  ⟨rfl, by with_unfolding_all rfl, by decide⟩

/-- C1 (corrected): when the computed result has `wasScaled = false` the
rewrite step is skipped and the decoded document is not mutated, but the
payload returned is the re-serialization
`writeBinary(readBinary(downloaded bytes))` of the unmutated document,
not the downloaded bytes themselves; it is byte-identical to the source
exactly when the serializer round-trips the decoded document. -/
theorem C1_unscaled_payload (env : GlbEnv) (cache : Cache) (now : Nat)
    (glbUrl : String) (options : ScalingOptions) (r : ScalingResult)
    (hf : (scaleGlbForAR env cache now glbUrl options).fetched = true)
    (hok : (scaleGlbForAR env cache now glbUrl options).result = .ok r)
    (hns : r.wasScaled = false) :
    ∃ bytes document,
      downloadGlb env glbUrl = .ok bytes ∧
      env.readBinary bytes = .ok document ∧
      r.glbData = env.writeBinary document ∧
      (env.writeBinary document = bytes → r.glbData = bytes) := by
  rw [scaleGlbForAR_eq_pipeline_of_fetched env cache now glbUrl options hf] at hok
  obtain ⟨bytes, document, idx, hdl, hrb, hs, hr, hout⟩ :=
    scaleGlbPipeline_ok env cache now glbUrl options (resolvedMax options)
      (requestKey glbUrl options) r hok
  subst hr
  have hglb : (finishResult env options (resolvedMax options) document idx).glbData =
      env.writeBinary document := by
    rw [finishResult_glbData, hns]
    simp
  exact ⟨bytes, document, hdl, hrb, hglb, fun h => hglb.trans h⟩

/-- A concrete environment for the C1 witness: identical to `envC1`
except that the serializer round-trips the document back to the
downloaded bytes. -/
def envC1W : GlbEnv :=
  { fetch := fun _ => .ok ⟨true, 200, "OK", [1, 2, 3]⟩
    readBinary := fun _ => .ok ⟨none, [⟨[.node ⟨1, 1, 1⟩ []]⟩]⟩
    writeBinary := fun _ => [1, 2, 3]
    getBounds := fun _ => (⟨0, 0, 0⟩, ⟨1, 1, 1⟩) }

/-- C1 witness: the corrected statement applied to a round-tripping
serializer, where the unscaled payload does equal the source bytes. -/
theorem C1_unscaled_payload_witness :
    (scaleGlbForAR envC1W [] 0 urlC1 {}).fetched = true ∧
    (scaleGlbForAR envC1W [] 0 urlC1 {}).result =
      .ok ⟨[1, 2, 3], 1, false, ⟨1, 1, 1⟩, ⟨1, 1, 1⟩⟩ ∧
    (∃ bytes document,
      downloadGlb envC1W urlC1 = .ok bytes ∧
      envC1W.readBinary bytes = .ok document ∧
      (⟨[1, 2, 3], 1, false, ⟨1, 1, 1⟩, ⟨1, 1, 1⟩⟩ : ScalingResult).glbData =
        envC1W.writeBinary document ∧
      (envC1W.writeBinary document = bytes →
        (⟨[1, 2, 3], 1, false, ⟨1, 1, 1⟩, ⟨1, 1, 1⟩⟩ : ScalingResult).glbData = bytes)) := by
  have hok : (scaleGlbForAR envC1W [] 0 urlC1 {}).result =
      .ok ⟨[1, 2, 3], 1, false, ⟨1, 1, 1⟩, ⟨1, 1, 1⟩⟩ := by with_unfolding_all rfl
  exact ⟨rfl, hok, C1_unscaled_payload envC1W [] 0 urlC1 {} _ rfl hok rfl⟩

/-! ## Claim C9 -/

/-- C9 (confirmed): when scaling is applied (`wasScaled` true), every
node attached directly to the target scene root has its existing local
scale vector multiplied componentwise by `scaleFactor` (composed with
the scale it already carried, not replaced), each root node's subtree —
hence the local transform of every node not at the scene root — is left
unmodified, every other scene is left unmodified, and the serialized
payload is exactly the document with this mutation applied to the
selected scene. -/
theorem C9_root_scale_composition :
    (∀ (f : Rat) (s : Scene) (i : Nat) (e : GNode),
      s.children[i]? = some e →
      ∃ e2, (applyScaleToScene f s).children[i]? = some e2 ∧
        e2.scale = ⟨e.scale.x * f, e.scale.y * f, e.scale.z * f⟩ ∧
        e2.childNodes = e.childNodes) ∧
    (∀ (d : Document) (idx : Nat) (f : Rat),
      (∀ j, j ≠ idx → (applyScaleToDocument d idx f).scenes[j]? = d.scenes[j]?) ∧
      (idx < d.scenes.length →
        (applyScaleToDocument d idx f).scenes[idx]? =
          some (applyScaleToScene f (d.scenes.getD idx ⟨[]⟩)))) ∧
    (∀ (env : GlbEnv) (cache : Cache) (now : Nat) (glbUrl : String)
        (options : ScalingOptions) (r : ScalingResult),
      (scaleGlbForAR env cache now glbUrl options).fetched = true →
      (scaleGlbForAR env cache now glbUrl options).result = .ok r →
      r.wasScaled = true →
      ∃ bytes document idx,
        downloadGlb env glbUrl = .ok bytes ∧
        env.readBinary bytes = .ok document ∧
        getSelectedScene document = some idx ∧
        r.glbData = env.writeBinary (applyScaleToDocument document idx r.scaleFactor)) := by
  refine ⟨?_, ?_, ?_⟩
  · intro f s i e h
    rcases e with ⟨sc, ch⟩
    refine ⟨scaleRootNode f (.node sc ch), ?_, rfl, rfl⟩
    simp [applyScaleToScene, List.getElem?_map, h]
  · intro d idx f
    constructor
    · intro j hj
      simp [applyScaleToDocument, List.getElem?_mapIdx, hj]
    · intro hidx
      simp [applyScaleToDocument, List.getElem?_mapIdx,
        List.getElem?_eq_getElem hidx, List.getD_eq_getElem d.scenes ⟨[]⟩ hidx]
  · intro env cache now glbUrl options r hf hok hws
    rw [scaleGlbForAR_eq_pipeline_of_fetched env cache now glbUrl options hf] at hok
    obtain ⟨bytes, document, idx, hdl, hrb, hs, hr, hout⟩ :=
      scaleGlbPipeline_ok env cache now glbUrl options (resolvedMax options)
        (requestKey glbUrl options) r hok
    subst hr
    refine ⟨bytes, document, idx, hdl, hrb, hs, ?_⟩
    rw [finishResult_glbData, hws]
    simp

/-- A concrete GLB URL for the C9 witness. -/
def urlC9 : String := "https://example.org/big.glb"

/-- A concrete environment for the C9 witness: a 4 m-wide model (scaled
by 1/2) whose scene has one root node with a child. -/
def envC9 : GlbEnv :=
  { fetch := fun _ => .ok ⟨true, 200, "OK", [1, 2, 3]⟩
    readBinary := fun _ =>
      .ok ⟨none, [⟨[.node ⟨2, 3, 4⟩ [.node ⟨5, 6, 7⟩ []]]⟩]⟩
    writeBinary := fun _ => [5]
    getBounds := fun _ => (⟨0, 0, 0⟩, ⟨4, 2, 2⟩) }

/-- C9 witness: the composition statement applied to the concrete scene
and to a concrete scaled service run. -/
theorem C9_root_scale_composition_witness :
    (∃ e2, (applyScaleToScene (1/2) ⟨[.node ⟨2, 3, 4⟩ [.node ⟨5, 6, 7⟩ []]]⟩).children[0]? =
        some e2 ∧
      e2.scale = ⟨2 * (1/2), 3 * (1/2), 4 * (1/2)⟩ ∧
      e2.childNodes = [.node ⟨5, 6, 7⟩ []]) ∧
    ((scaleGlbForAR envC9 [] 0 urlC9 {}).fetched = true ∧
     (scaleGlbForAR envC9 [] 0 urlC9 {}).result =
        .ok ⟨[5], 1/2, true, ⟨4, 2, 2⟩, ⟨2, 1, 1⟩⟩ ∧
     (∃ bytes document idx,
        downloadGlb envC9 urlC9 = .ok bytes ∧
        envC9.readBinary bytes = .ok document ∧
        getSelectedScene document = some idx ∧
        (⟨[5], 1/2, true, ⟨4, 2, 2⟩, ⟨2, 1, 1⟩⟩ : ScalingResult).glbData =
          envC9.writeBinary (applyScaleToDocument document idx
            (⟨[5], 1/2, true, ⟨4, 2, 2⟩, ⟨2, 1, 1⟩⟩ : ScalingResult).scaleFactor))) := by
  have hok : (scaleGlbForAR envC9 [] 0 urlC9 {}).result =
      .ok ⟨[5], 1/2, true, ⟨4, 2, 2⟩, ⟨2, 1, 1⟩⟩ := by with_unfolding_all rfl
  refine ⟨C9_root_scale_composition.1 (1/2) ⟨[.node ⟨2, 3, 4⟩ [.node ⟨5, 6, 7⟩ []]]⟩ 0
    (.node ⟨2, 3, 4⟩ [.node ⟨5, 6, 7⟩ []]) rfl, rfl, hok, ?_⟩
  exact C9_root_scale_composition.2.2 envC9 [] 0 urlC9 {} _ rfl hok rfl

/-! ## Claim C7 -/

/-- C7 (confirmed): (1) a cached entry read strictly within one hour of
its creation is returned as-is — identical payload bytes and metadata —
with no network fetch, no decode and an untouched cache; (2) hence a
second call with identical source URL and `maxDimension`, within one
hour of a first call that computed its result, returns exactly the
first call's result with no fetch and no decode; (3) a read of an entry
whose age exceeds one hour behaves as a miss: the call re-runs the full
pipeline, in particular it fetches. -/
theorem C7_cache_hit_equivalence :
    (∀ (env : GlbEnv) (cache : Cache) (now : Nat) (glbUrl : String)
        (options : ScalingOptions) (e : CacheEntry),
      cacheGet cache (requestKey glbUrl options) = some e →
      now - e.timestamp < CACHE_TTL_MS →
      scaleGlbForAR env cache now glbUrl options = ⟨.ok e.result, cache, false, false⟩) ∧
    (∀ (env : GlbEnv) (cache : Cache) (now0 now1 : Nat) (glbUrl : String)
        (options options2 : ScalingOptions) (r : ScalingResult),
      options2.maxDimension = options.maxDimension →
      (scaleGlbForAR env cache now0 glbUrl options).fetched = true →
      (scaleGlbForAR env cache now0 glbUrl options).result = .ok r →
      now1 - now0 < CACHE_TTL_MS →
      scaleGlbForAR env (scaleGlbForAR env cache now0 glbUrl options).cache now1 glbUrl
          options2 =
        ⟨.ok r, (scaleGlbForAR env cache now0 glbUrl options).cache, false, false⟩) ∧
    (∀ (env : GlbEnv) (cache : Cache) (now : Nat) (glbUrl : String)
        (options : ScalingOptions) (e : CacheEntry),
      cacheGet cache (requestKey glbUrl options) = some e →
      CACHE_TTL_MS < now - e.timestamp →
      scaleGlbForAR env cache now glbUrl options =
        scaleGlbPipeline env cache now glbUrl options (resolvedMax options)
          (requestKey glbUrl options) ∧
      (scaleGlbForAR env cache now glbUrl options).fetched = true) := by
  refine ⟨scaleGlbForAR_hit, ?_, ?_⟩
  · intro env cache now0 now1 glbUrl options options2 r hmax hf hok hfresh
    have heq := scaleGlbForAR_eq_pipeline_of_fetched env cache now0 glbUrl options hf
    rw [heq] at hok
    obtain ⟨bytes, document, idx, hdl, hrb, hs, hr, hout⟩ :=
      scaleGlbPipeline_ok env cache now0 glbUrl options (resolvedMax options)
        (requestKey glbUrl options) r hok
    have hkey : requestKey glbUrl options2 = requestKey glbUrl options := by
      unfold requestKey resolvedMax
      rw [hmax]
    have hget : cacheGet (scaleGlbForAR env cache now0 glbUrl options).cache
        (requestKey glbUrl options2) = some ⟨r.glbData, now0, r⟩ := by
      rw [hkey, heq, hout]
      exact cacheGet_cacheSet_self _ _ _
    exact scaleGlbForAR_hit env (scaleGlbForAR env cache now0 glbUrl options).cache now1
      glbUrl options2 ⟨r.glbData, now0, r⟩ hget hfresh
  · intro env cache now glbUrl options e hc hold
    have hstale : ¬ now - e.timestamp < CACHE_TTL_MS := by omega
    have heq := scaleGlbForAR_stale env cache now glbUrl options e hc hstale
    refine ⟨heq, ?_⟩
    rw [heq]
    exact scaleGlbPipeline_fetched env cache now glbUrl options (resolvedMax options)
      (requestKey glbUrl options)

/-- A concrete GLB URL for the C7 witness. -/
def urlC7 : String := "https://example.org/ok.glb"

/-- A concrete environment for the C7 witness: a model within the bound. -/
def envC7 : GlbEnv :=
  { fetch := fun _ => .ok ⟨true, 200, "OK", [1, 2, 3]⟩
    readBinary := fun _ => .ok ⟨none, [⟨[.node ⟨1, 1, 1⟩ []]⟩]⟩
    writeBinary := fun _ => [7]
    getBounds := fun _ => (⟨0, 0, 0⟩, ⟨1, 1, 1⟩) }

/-- The result the C7 witness run computes. -/
def rC7 : ScalingResult := ⟨[7], 1, false, ⟨1, 1, 1⟩, ⟨1, 1, 1⟩⟩

/-- A single-entry cache, aged exactly one TTL plus one millisecond at
read time in the stale part of the C7 witness. -/
def cacheC7 : Cache := [(requestKey urlC7 {}, ⟨[7], 0, rC7⟩)]

/-- C7 witness: a first computing call at time 0, a second call one
millisecond later returning the identical result with no fetch; and a
stale read one millisecond past the TTL that re-fetches. -/
theorem C7_cache_hit_equivalence_witness :
    ((scaleGlbForAR envC7 [] 0 urlC7 {}).fetched = true ∧
     (scaleGlbForAR envC7 [] 0 urlC7 {}).result = .ok rC7 ∧
     (1 : Nat) - 0 < CACHE_TTL_MS ∧
     scaleGlbForAR envC7 (scaleGlbForAR envC7 [] 0 urlC7 {}).cache 1 urlC7 {} =
       ⟨.ok rC7, (scaleGlbForAR envC7 [] 0 urlC7 {}).cache, false, false⟩) ∧
    (cacheGet cacheC7 (requestKey urlC7 {}) = some ⟨[7], 0, rC7⟩ ∧
     CACHE_TTL_MS < (CACHE_TTL_MS + 1) - 0 ∧
     (scaleGlbForAR envC7 cacheC7 (CACHE_TTL_MS + 1) urlC7 {}).fetched = true) := by
  have hok : (scaleGlbForAR envC7 [] 0 urlC7 {}).result = .ok rC7 := by
    with_unfolding_all rfl
  refine ⟨⟨rfl, hok, by decide, ?_⟩, ⟨rfl, by decide, ?_⟩⟩
  · exact C7_cache_hit_equivalence.2.1 envC7 [] 0 1 urlC7 {} {} rC7 rfl rfl hok (by decide)
  · exact (C7_cache_hit_equivalence.2.2 envC7 cacheC7 (CACHE_TTL_MS + 1) urlC7 {}
      ⟨[7], 0, rC7⟩ rfl (by decide)).2

/-! ## Claim C8 -/

/-- A concrete GLB URL for the C8 scenarios. -/
def urlC8 : String := "https://example.org/missing.glb"

/-- A dummy result stored in the C8 counterexample cache entries. -/
def rC8 : ScalingResult := ⟨[], 1, false, ⟨0, 0, 0⟩, ⟨0, 0, 0⟩⟩

/-- 51 cache entries (all created at time 0, hence all expired one
millisecond past the TTL), enough to trigger the pre-fetch sweep. -/
def cacheC8 : Cache := (List.range 51).map (fun i => (toString i, ⟨[], 0, rC8⟩))

/-- The decode error message of the C8 environments (never reached). -/
def msgC8Decode : String := "unreachable"

/-- The transport error message of the C8 rejected fetch. -/
def msgC8Transport : String := "fetch failed"

/-- A concrete environment for C8 whose fetch resolves to HTTP 404. -/
def envC8 : GlbEnv :=
  { fetch := fun _ => .ok ⟨false, 404, "Not Found", []⟩
    readBinary := fun _ => .error msgC8Decode
    writeBinary := fun _ => []
    getBounds := fun _ => (⟨0, 0, 0⟩, ⟨0, 0, 0⟩) }

/-- A concrete environment for C8 whose fetch rejects in transport. -/
def envC8T : GlbEnv :=
  { fetch := fun _ => .error msgC8Transport
    readBinary := fun _ => .error msgC8Decode
    writeBinary := fun _ => []
    getBounds := fun _ => (⟨0, 0, 0⟩, ⟨0, 0, 0⟩) }


/-- C8 counterexample: with 51 entries in the cache, all expired, a
request whose fetch returns HTTP 404 raises the download error but does
NOT leave the cache unchanged: the pre-fetch sweep (which runs because
the cache holds more than 50 entries) empties it. -/
theorem C8_counterexample :
    (scaleGlbForAR envC8 cacheC8 (CACHE_TTL_MS + 1) urlC8 {}).result =
      .error (.downloadFailed 404 "Not Found") ∧
    (scaleGlbForAR envC8 cacheC8 (CACHE_TTL_MS + 1) urlC8 {}).cache = [] ∧
    cacheC8.length = 51 ∧
    (scaleGlbForAR envC8 cacheC8 (CACHE_TTL_MS + 1) urlC8 {}).cache ≠ cacheC8 := by
  have hcache : (scaleGlbForAR envC8 cacheC8 (CACHE_TTL_MS + 1) urlC8 {}).cache = [] := by
    with_unfolding_all rfl
  have hlen : cacheC8.length = 51 := by with_unfolding_all rfl
  refine ⟨by with_unfolding_all rfl, hcache, hlen, ?_⟩
  intro heq
  rw [hcache] at heq
  have hlen0 := congrArg List.length heq
  rw [hlen] at hlen0
  exact absurd hlen0.symm (by decide)

/-- C8 (corrected): when the cache misses and the source fetch fails,
`scaleGlbForAR` raises an error — the
`Failed to download GLB: <status> <statusText>` error for a resolved
non-success HTTP response, the transport error propagated unchanged for
a rejected fetch — and no cache entry is created or modified for any
key: every entry of the final cache was already stored before the call.
The cache is not necessarily left unchanged, because when it holds more
than 50 entries the expired-entry sweep runs before the fetch (the
counterexample). -/
theorem C8_download_failure (env : GlbEnv) (cache : Cache) (now : Nat)
    (glbUrl : String) (options : ScalingOptions)
    (hmiss : cacheGet cache (requestKey glbUrl options) = none)
    (hnodup : (cache.map Prod.fst).Nodup) :
    (∀ resp : FetchResponse, env.fetch glbUrl = .ok resp → resp.ok = false →
      (scaleGlbForAR env cache now glbUrl options).result =
        .error (.downloadFailed resp.status resp.statusText) ∧
      (GlbError.downloadFailed resp.status resp.statusText).message =
        "Failed to download GLB: " ++ toString resp.status ++ " " ++ resp.statusText) ∧
    (∀ msg : String, env.fetch glbUrl = .error msg →
      (scaleGlbForAR env cache now glbUrl options).result = .error (.transport msg)) ∧
    (∀ err : GlbError,
      (scaleGlbForAR env cache now glbUrl options).result = .error err →
      ∀ (k : String) (e : CacheEntry),
        cacheGet (scaleGlbForAR env cache now glbUrl options).cache k = some e →
        cacheGet cache k = some e) := by
  have heq := scaleGlbForAR_miss env cache now glbUrl options hmiss
  refine ⟨?_, ?_, ?_⟩
  · intro resp hfetch hko
    have hdl : downloadGlb env glbUrl =
        .error (.downloadFailed resp.status resp.statusText) := by
      unfold downloadGlb
      rw [hfetch]
      simp [hko]
    rw [heq, scaleGlbPipeline_download_error env cache now glbUrl options
      (resolvedMax options) (requestKey glbUrl options) _ hdl]
    exact ⟨rfl, rfl⟩
  · intro msg hfetch
    have hdl : downloadGlb env glbUrl = .error (.transport msg) := by
      unfold downloadGlb
      rw [hfetch]
    rw [heq, scaleGlbPipeline_download_error env cache now glbUrl options
      (resolvedMax options) (requestKey glbUrl options) _ hdl]
  · intro err herr k e hk
    rw [heq] at herr hk
    rw [scaleGlbPipeline_error env cache now glbUrl options (resolvedMax options)
      (requestKey glbUrl options) err herr] at hk
    by_cases hlen : cache.length > 50
    · rw [if_pos hlen] at hk
      exact cacheGet_cleanupCache now cache k e hnodup hk
    · rwa [if_neg hlen] at hk

/-- C8 witness: the corrected statement at a concrete 404 fetch over a
small (not swept) one-entry fresh-keyed cache, and at a concrete
transport failure over an empty cache. -/
theorem C8_download_failure_witness :
    (cacheGet ([] : Cache) (requestKey urlC8 {}) = none ∧
     envC8.fetch urlC8 = .ok ⟨false, 404, "Not Found", []⟩ ∧
     (scaleGlbForAR envC8 [] 0 urlC8 {}).result =
       .error (.downloadFailed 404 "Not Found") ∧
     (GlbError.downloadFailed 404 "Not Found").message =
       "Failed to download GLB: " ++ toString (404 : Nat) ++ " " ++ "Not Found") ∧
    (envC8T.fetch urlC8 = .error msgC8Transport ∧
     (scaleGlbForAR envC8T [] 0 urlC8 {}).result = .error (.transport msgC8Transport)) := by
  refine ⟨⟨rfl, rfl, ?_, ?_⟩, rfl, ?_⟩
  · exact ((C8_download_failure envC8 [] 0 urlC8 {} rfl (by simp)).1
      ⟨false, 404, "Not Found", []⟩ rfl rfl).1
  · exact ((C8_download_failure envC8 [] 0 urlC8 {} rfl (by simp)).1
      ⟨false, 404, "Not Found", []⟩ rfl rfl).2
  · exact (C8_download_failure envC8T [] 0 urlC8 {} rfl (by simp)).2.1
      msgC8Transport rfl

/-! ## Claim C10 -/

/-- C10 (confirmed): the freshness checks are asymmetric at the
boundary.  For an entry whose age at read time is exactly
`CACHE_TTL_MS`, the cache check of `scaleGlbForAR` treats it as a miss
(a hit requires age strictly below the TTL, so the call fetches), yet
`cleanupCache` retains it (deletion requires age strictly above the
TTL): an exactly-TTL-aged entry is simultaneously unusable and kept by
a sweep. -/
theorem C10_ttl_boundary (env : GlbEnv) (cache : Cache) (now : Nat)
    (glbUrl : String) (options : ScalingOptions) (e : CacheEntry)
    (hc : cacheGet cache (requestKey glbUrl options) = some e)
    (hb : now - e.timestamp = CACHE_TTL_MS) :
    (scaleGlbForAR env cache now glbUrl options).fetched = true ∧
    cacheGet (cleanupCache now cache) (requestKey glbUrl options) = some e := by
  have hstale : ¬ now - e.timestamp < CACHE_TTL_MS := by omega
  constructor
  · rw [scaleGlbForAR_stale env cache now glbUrl options e hc hstale]
    exact scaleGlbPipeline_fetched env cache now glbUrl options (resolvedMax options)
      (requestKey glbUrl options)
  · exact cacheGet_cleanupCache_fresh now cache _ e hc (by omega)

/-- A concrete GLB URL for the C10 witness. -/
def urlC10 : String := "https://example.org/boundary.glb"

/-- A concrete environment for the C10 witness. -/
def envC10 : GlbEnv :=
  { fetch := fun _ => .ok ⟨true, 200, "OK", [1, 2, 3]⟩
    readBinary := fun _ => .ok ⟨none, [⟨[.node ⟨1, 1, 1⟩ []]⟩]⟩
    writeBinary := fun _ => [7]
    getBounds := fun _ => (⟨0, 0, 0⟩, ⟨1, 1, 1⟩) }

/-- The result stored in the C10 witness cache entry. -/
def rC10 : ScalingResult := ⟨[7], 1, false, ⟨1, 1, 1⟩, ⟨1, 1, 1⟩⟩

/-- A single-entry cache whose entry was created at time 0. -/
def cacheC10 : Cache := [(requestKey urlC10 {}, ⟨[7], 0, rC10⟩)]


/-- C10 witness: the boundary behaviour at a concrete single-entry cache
whose entry is exactly `CACHE_TTL_MS` old. -/
theorem C10_ttl_boundary_witness :
    cacheGet cacheC10 (requestKey urlC10 {}) = some ⟨[7], 0, rC10⟩ ∧
    CACHE_TTL_MS - 0 = CACHE_TTL_MS ∧
    (scaleGlbForAR envC10 cacheC10 CACHE_TTL_MS urlC10 {}).fetched = true ∧
    cacheGet (cleanupCache CACHE_TTL_MS cacheC10) (requestKey urlC10 {}) =
      some ⟨[7], 0, rC10⟩ := by
  have h := C10_ttl_boundary envC10 cacheC10 CACHE_TTL_MS urlC10 {}
    ⟨[7], 0, rC10⟩ rfl rfl
  exact ⟨rfl, rfl, h.1, h.2⟩

end ARViewer
